import Mathlib

/-!
Verification of the Todo-Tasker sync subsystem, embedded from the code in
src/docs/sync-architecture.md: the client-side sync engine (mergeTodo,
handleSyncData, sendTodosInBatches, validateTimestamp) and the Go relay
server (syncWebSocketHandler, handleJoin, relayMessage, cleanupSessions,
removeConnection).
-/

/-- A todo record as carried in a SYNC_DATA payload and stored in the
todos table: id, title, description, completed, priority, due_date,
device_id, created_at, updated_at, deleted. Integer flags are kept as
integers (0/1) as in the SQLite schema; timestamps are Unix milliseconds. -/
structure Todo where
  id : String
  title : String
  description : String
  completed : Int
  priority : String
  due_date : Option Int
  device_id : String
  created_at : Int
  updated_at : Int
  deleted : Int
deriving DecidableEq

/-- The device-local record store, read and written by id
(getTodoById / insertTodo / updateTodo in sync-engine.js). -/
abbrev Store := String → Option Todo

/-- getTodoById: SELECT the row with the given id. -/
def getTodoById (store : Store) (id : String) : Option Todo := store id

/-- insertTodo: INSERT INTO todos (id, title, description, completed,
priority, due_date, device_id, created_at, updated_at, deleted). -/
def insertTodo (store : Store) (t : Todo) : Store :=
  fun i => if i = t.id then some t else store i

/-- The row produced by updateTodo's UPDATE statement: it SETs title,
description, completed, priority, due_date, updated_at and deleted from the
incoming todo, leaving id, device_id and created_at of the stored row
untouched (they are not in the SET list). -/
def updateFields (l t : Todo) : Todo :=
  { l with
    title := t.title
    description := t.description
    completed := t.completed
    priority := t.priority
    due_date := t.due_date
    updated_at := t.updated_at
    deleted := t.deleted }

/-- updateTodo: UPDATE todos SET ... WHERE id = t.id (a no-op when no row
has that id). -/
def updateTodo (store : Store) (t : Todo) : Store :=
  fun i => if i = t.id then (store i).map (fun l => updateFields l t) else store i

/-- mergeTodo as implemented in the SyncEngine class (sync-engine.js,
doc lines 615-630): insert when absent; otherwise overwrite only when the
incoming updated_at is strictly greater, else keep the local row.
This version has no device_id tiebreak for equal timestamps. -/
def mergeTodo (store : Store) (remote : Todo) : Store :=
  match getTodoById store remote.id with
  | none => insertTodo store remote
  | some localTodo =>
      if remote.updated_at > localTodo.updated_at then updateTodo store remote
      else store

/-- The lexicographic string order used by the tiebreak comparison
remoteTodo.device_id < localTodo.device_id: less-than on the character
sequences of the two strings (the definition behind the String order). -/
def deviceLt (a b : String) : Prop := a.data < b.data

instance (a b : String) : Decidable (deviceLt a b) := by
  unfold deviceLt; infer_instance

/-- mergeTodo as given in the Conflict Resolution section (doc lines
920-943): same last-write-wins rule, but on an exact updated_at tie the
incoming row wins when its device_id is lexicographically smaller. -/
def mergeTodoCR (store : Store) (remote : Todo) : Store :=
  match getTodoById store remote.id with
  | none => insertTodo store remote
  | some localTodo =>
      if remote.updated_at > localTodo.updated_at then updateTodo store remote
      else if remote.updated_at < localTodo.updated_at then store
      else if deviceLt remote.device_id localTodo.device_id then updateTodo store remote
      else store

/-- handleSyncData (doc lines 601-613): merge each incoming record of the
SYNC_DATA batch, in order, into the local store. -/
def handleSyncData (store : Store) (todos : List Todo) : Store :=
  todos.foldl mergeTodo store

/-- One SYNC_DATA message produced by batched transfer: the chunk of todos
plus the batchIndex / totalBatches tags. -/
structure SyncDataBatch where
  todos : List Todo
  batchIndex : Nat
  totalBatches : Nat
deriving DecidableEq

/-- The loop body of sendTodosInBatches (doc lines 1085-1100): while
i < todos.length, emit the chunk todos.slice(i, i + batchSize) tagged with
batchIndex = i / batchSize and totalBatches = ceil(length / batchSize),
then advance i by batchSize. The fuel argument only bounds the recursion;
with fuel = todos.length and a positive batchSize it never runs out before
the loop condition fails. -/
def batchLoop : Nat → List Todo → Nat → Nat → List SyncDataBatch
  | 0, _, _, _ => []
  | fuel + 1, todos, batchSize, i =>
      if i < todos.length then
        { todos := (todos.drop i).take batchSize
          batchIndex := i / batchSize
          totalBatches := (todos.length + batchSize - 1) / batchSize } ::
          batchLoop fuel todos batchSize (i + batchSize)
      else []

/-- sendTodosInBatches (doc lines 1085-1100): split the todo list into
chunks of batchSize records, one SYNC_DATA message per chunk. -/
def sendTodosInBatches (todos : List Todo) (batchSize : Nat) : List SyncDataBatch :=
  batchLoop todos.length todos batchSize 0

/-- One day in milliseconds, the sanity bound of validateTimestamp. -/
def oneDay : Int := 24 * 60 * 60 * 1000

/-- validateTimestamp (doc lines 1053-1064): a timestamp more than one day
away from the local clock is replaced by the current time, otherwise it is
returned unchanged. Nothing in the merge path calls this function. -/
def validateTimestamp (now ts : Int) : Int :=
  if |ts - now| > oneDay then now else ts

/-- The websocket envelope (server/sync.go SyncMessage): type, sessionId,
fromDevice, optional toDevice, timestamp, payload. The relay treats the
payload as an opaque blob, so it is modelled as a plain string. -/
structure SyncMessage where
  type : String
  sessionId : String
  fromDevice : String
  toDevice : Option String
  timestamp : Int
  payload : String
deriving DecidableEq

/-- SyncSession (server/sync.go): a session id, the set of joined devices
(the keys of the Connections map; each open channel is identified by its
device id), and the creation time in milliseconds. -/
structure SyncSession where
  sessionID : String
  connections : List String
  createdAt : Int
deriving DecidableEq

/-- The in-memory sessions map of the relay (sessionId to session). -/
abbrev SessionMap := String → Option SyncSession

/-- Fifteen minutes in milliseconds: the session expiry window used by
cleanupSessions. -/
def fifteenMinutes : Int := 15 * 60 * 1000

/-- cleanupSessions (doc lines 752-769), effect on the sessions map: every
session whose age now - createdAt strictly exceeds fifteen minutes is
deleted; the rest are kept unchanged. -/
def cleanupSessions (sessions : SessionMap) (now : Int) : SessionMap :=
  fun sid =>
    match sessions sid with
    | none => none
    | some s => if now - s.createdAt > fifteenMinutes then none else some s

/-- The channels closed by the cleanupSessions sweep for a given session:
before an expired session is deleted every connection in it is closed, and
connections of non-expired sessions are left alone. -/
def cleanupClosedChannels (sessions : SessionMap) (now : Int) (sid : String) : List String :=
  match sessions sid with
  | none => []
  | some s => if now - s.createdAt > fifteenMinutes then s.connections else []

/-- relayMessage (doc lines 847-871): look the session up; when it is
absent the message is dropped with a log; otherwise the message is written
to every connection of the session whose device id differs from the
sender. The result is the delivery list (recipient device, message). -/
def relayMessage (sessions : SessionMap) (sessionID fromDevice : String)
    (msg : SyncMessage) : List (String × SyncMessage) :=
  match sessions sessionID with
  | none => []
  | some session =>
      (session.connections.filter (fun d => d ≠ fromDevice)).map (fun d => (d, msg))

/-- Adding a device to a session's Connections map: a Go map assignment,
so a device already present stays a single entry. -/
def joinConnections (conns : List String) (deviceID : String) : List String :=
  if deviceID ∈ conns then conns else deviceID :: conns

/-- handleJoin (doc lines 817-845): create the session on first join
(createdAt = now), add the connection under its device id, then relay the
JOIN message to the other participants. Returns the new sessions map and
the deliveries made for the relayed JOIN. -/
def handleJoin (sessions : SessionMap) (sessionID deviceID : String) (now : Int)
    (msg : SyncMessage) : SessionMap × List (String × SyncMessage) :=
  let session :=
    match sessions sessionID with
    | some s => { s with connections := joinConnections s.connections deviceID }
    | none => { sessionID := sessionID, connections := [deviceID], createdAt := now }
  let sessions' : SessionMap := fun sid => if sid = sessionID then some session else sessions sid
  (sessions', relayMessage sessions' sessionID deviceID msg)

/-- removeConnection (doc lines 873-897): a no-op on an unknown session;
otherwise the device is removed from the session's Connections map and,
when no device remains, the session itself is deleted from the map. -/
def removeConnection (sessions : SessionMap) (sessionID deviceID : String) : SessionMap :=
  match sessions sessionID with
  | none => sessions
  | some session =>
      let conns := session.connections.erase deviceID
      fun sid =>
        if sid = sessionID then
          if conns.length = 0 then none else some { session with connections := conns }
        else sessions sid

/-- The message types the relay forwards via relayMessage (the multi-value
case of the switch in syncWebSocketHandler). -/
def relayTypes : List String :=
  ["METADATA_EXCHANGE", "REQUEST_SYNC", "SYNC_DATA", "SYNC_COMPLETE", "ERROR"]

/-- The full set of protocol message types of the wire format. -/
def knownMessageTypes : List String :=
  ["JOIN", "METADATA_EXCHANGE", "REQUEST_SYNC", "SYNC_DATA", "SYNC_COMPLETE",
   "ERROR", "PING", "PONG"]

/-- The PONG reply built for a PING (doc lines 802-809): only Type,
SessionID and Timestamp are set, the remaining fields are zero values. -/
def pongMessage (sessionID : String) (now : Int) : SyncMessage :=
  { type := "PONG", sessionId := sessionID, fromDevice := "", toDevice := none,
    timestamp := now, payload := "" }

/-- The observable effect of handling one parsed message in the read loop
of syncWebSocketHandler: the sessions map afterwards, the messages written
directly back to the sender, the relayed deliveries, and whether the
branch closes the connection. -/
structure StepResult where
  sessions : SessionMap
  replies : List SyncMessage
  relayed : List (String × SyncMessage)
  closesConn : Bool

/-- The switch of syncWebSocketHandler (doc lines 783-811) on one
successfully parsed message: JOIN joins and relays, the five relayable
types are forwarded with relayMessage, PING is answered with a PONG to the
sender, and any other type falls through the switch with no effect. No
branch closes the connection; the loop only ends on a read error. -/
def syncWebSocketStep (sessions : SessionMap) (now : Int) (msg : SyncMessage) : StepResult :=
  if msg.type = "JOIN" then
    let j := handleJoin sessions msg.sessionId msg.fromDevice now msg
    { sessions := j.1, replies := [], relayed := j.2, closesConn := false }
  else if msg.type ∈ relayTypes then
    { sessions := sessions, replies := [],
      relayed := relayMessage sessions msg.sessionId msg.fromDevice msg,
      closesConn := false }
  else if msg.type = "PING" then
    { sessions := sessions, replies := [pongMessage msg.sessionId now],
      relayed := [], closesConn := false }
  else
    { sessions := sessions, replies := [], relayed := [], closesConn := false }

/-! ## Properties of the merge -/

lemma handleSyncData_cons (s : Store) (r : Todo) (B : List Todo) :
    handleSyncData s (r :: B) = handleSyncData (mergeTodo s r) B := rfl

lemma mergeTodo_updated_at_mono (s : Store) (r : Todo) (i : String) (l : Todo)
    (h : s i = some l) :
    ∃ l2, mergeTodo s r i = some l2 ∧ l.updated_at ≤ l2.updated_at := by
  rcases hr : s r.id with _ | lt
  · by_cases hi : i = r.id
    · rw [hi, hr] at h; cases h
    · exact ⟨l, by simp [mergeTodo, getTodoById, hr, insertTodo, hi, h], le_refl _⟩
  · by_cases hgt : r.updated_at > lt.updated_at
    · by_cases hi : i = r.id
      · subst hi
        have hl : l = lt := by rw [h] at hr; exact Option.some.inj hr
        subst hl
        refine ⟨updateFields l r, ?_, ?_⟩
        · simp [mergeTodo, getTodoById, hr, if_pos hgt, updateTodo, h]
        · simpa [updateFields] using le_of_lt hgt
      · exact ⟨l, by simp [mergeTodo, getTodoById, hr, if_pos hgt, updateTodo, hi, h],
          le_refl _⟩
    · exact ⟨l, by simp [mergeTodo, getTodoById, hr, if_neg hgt, h], le_refl _⟩

lemma handleSyncData_updated_at_mono :
    ∀ (B : List Todo) (s : Store) (i : String) (l : Todo), s i = some l →
      ∃ l2, handleSyncData s B i = some l2 ∧ l.updated_at ≤ l2.updated_at := by
  intro B
  induction B with
  | nil => intro s i l h; exact ⟨l, h, le_refl _⟩
  | cons r B ih =>
      intro s i l h
      obtain ⟨l1, h1, le1⟩ := mergeTodo_updated_at_mono s r i l h
      obtain ⟨l2, h2, le2⟩ := ih (mergeTodo s r) i l1 h1
      exact ⟨l2, h2, le_trans le1 le2⟩

lemma mergeTodo_self (s : Store) (r : Todo) :
    ∃ l, mergeTodo s r r.id = some l ∧ r.updated_at ≤ l.updated_at := by
  rcases hr : s r.id with _ | lt
  · exact ⟨r, by simp [mergeTodo, getTodoById, hr, insertTodo], le_refl _⟩
  · by_cases hgt : r.updated_at > lt.updated_at
    · refine ⟨updateFields lt r, ?_, ?_⟩
      · simp [mergeTodo, getTodoById, hr, if_pos hgt, updateTodo]
      · simp [updateFields]
    · exact ⟨lt, by simp [mergeTodo, getTodoById, hr, if_neg hgt], not_lt.mp hgt⟩

lemma handleSyncData_covers :
    ∀ (B : List Todo) (s : Store) (r : Todo), r ∈ B →
      ∃ l, handleSyncData s B r.id = some l ∧ r.updated_at ≤ l.updated_at := by
  intro B
  induction B with
  | nil => intro s r h; cases h
  | cons a B ih =>
      intro s r h
      rcases List.mem_cons.mp h with h | h
      · subst h
        obtain ⟨l1, h1, le1⟩ := mergeTodo_self s r
        obtain ⟨l2, h2, le2⟩ := handleSyncData_updated_at_mono B (mergeTodo s r) r.id l1 h1
        exact ⟨l2, h2, le_trans le1 le2⟩
      · exact ih (mergeTodo s a) r h

lemma mergeTodo_noop (s : Store) (r l : Todo) (h : s r.id = some l)
    (hle : r.updated_at ≤ l.updated_at) : mergeTodo s r = s := by
  simp only [mergeTodo, getTodoById, h]
  rw [if_neg (not_lt.mpr hle)]

lemma handleSyncData_noop :
    ∀ (B : List Todo) (s : Store),
      (∀ r ∈ B, ∃ l, s r.id = some l ∧ r.updated_at ≤ l.updated_at) →
      handleSyncData s B = s := by
  intro B
  induction B with
  | nil => intro s _; rfl
  | cons a B ih =>
      intro s H
      obtain ⟨l, hl, hle⟩ := H a (List.mem_cons_self a B)
      have hstep : handleSyncData s (a :: B) = handleSyncData s B := by
        rw [handleSyncData_cons, mergeTodo_noop s a l hl hle]
      rw [hstep]
      exact ih s (fun r hr => H r (List.mem_cons_of_mem a hr))

/-- Claim C2: merge is idempotent. For every local record state and every
SYNC_DATA batch, merging every record of the batch a second time leaves
the store produced by the first application exactly unchanged. -/
theorem c2_merge_idempotent (s : Store) (B : List Todo) :
    handleSyncData (handleSyncData s B) B = handleSyncData s B := by
  apply handleSyncData_noop
  intro r hr
  obtain ⟨l, hl, hle⟩ := handleSyncData_covers B s r hr
  exact ⟨l, hl, hle⟩

/-! ## Concrete records for the conflict-resolution claims -/

/-- A store holding exactly one todo, under its id. -/
def storeWith (t : Todo) : Store := fun i => if i = t.id then some t else none

/-- The replica-a copy of record t1: device_id "a", updated_at 100. -/
def tdA : Todo :=
  { id := "t1", title := "title-from-a", description := "", completed := 0,
    priority := "medium", due_date := none, device_id := "a", created_at := 10,
    updated_at := 100, deleted := 0 }

/-- The replica-b copy of record t1: device_id "b", same updated_at 100,
different payload. -/
def tdB : Todo :=
  { id := "t1", title := "title-from-b", description := "", completed := 0,
    priority := "medium", due_date := none, device_id := "b", created_at := 20,
    updated_at := 100, deleted := 0 }

/-- Claim C1 (code bug witness): on an exact updated_at tie the SyncEngine
mergeTodo keeps whatever row is local, on both replicas, so the replica
holding the "b" row never adopts the payload of the lexicographically
smaller device "a" and the two replicas stay divergent; the mergeTodo of
the Conflict Resolution section does resolve both replicas to the payload
of device "a" at the same input. -/
theorem c1_equal_timestamp_no_tiebreak :
    deviceLt tdA.device_id tdB.device_id ∧ tdA.updated_at = tdB.updated_at ∧
    tdA.title ≠ tdB.title ∧
    mergeTodo (storeWith tdB) tdA "t1" = some tdB ∧
    mergeTodo (storeWith tdA) tdB "t1" = some tdA ∧
    (mergeTodoCR (storeWith tdB) tdA "t1").map Todo.title = some tdA.title ∧
    (mergeTodoCR (storeWith tdA) tdB "t1").map Todo.title = some tdA.title := by
  exact ⟨by decide, rfl, by decide, rfl, rfl, rfl, rfl⟩

/-- A copy of the t1 record from device "a" with a strictly newer
updated_at than tdB. -/
def tdA2 : Todo := { tdA with updated_at := 200 }

/-- Claim C8: when the merge overwrites an existing local row with an
incoming version, the stored row keeps its id, device_id and created_at,
and takes exactly the incoming payload fields, updated_at and deleted. -/
theorem c8_merge_preserves_created_at (s : Store) (r l : Todo)
    (h : s r.id = some l) (hgt : r.updated_at > l.updated_at) :
    mergeTodo s r r.id = some (updateFields l r) ∧
    (updateFields l r).created_at = l.created_at ∧
    (updateFields l r).id = l.id ∧
    (updateFields l r).device_id = l.device_id ∧
    (updateFields l r).title = r.title ∧
    (updateFields l r).description = r.description ∧
    (updateFields l r).completed = r.completed ∧
    (updateFields l r).priority = r.priority ∧
    (updateFields l r).due_date = r.due_date ∧
    (updateFields l r).updated_at = r.updated_at ∧
    (updateFields l r).deleted = r.deleted := by
  refine ⟨?_, rfl, rfl, rfl, rfl, rfl, rfl, rfl, rfl, rfl, rfl⟩
  simp [mergeTodo, getTodoById, h, if_pos hgt, updateTodo]

/-- Witness for claim C8 at a concrete overwrite: tdA2 (updated_at 200)
overwrites the stored tdB (updated_at 100) and created_at stays tdB's. -/
theorem c8_witness :
    mergeTodo (storeWith tdB) tdA2 "t1" = some (updateFields tdB tdA2) ∧
    (updateFields tdB tdA2).created_at = tdB.created_at := by
  have h := c8_merge_preserves_created_at (storeWith tdB) tdA2 tdB rfl (by decide)
  exact ⟨h.1, h.2.1⟩

/-- A sample todo used to build the 250-record batch of claim C7. -/
def sampleTodo : Todo :=
  { id := "s", title := "t", description := "", completed := 0, priority := "low",
    due_date := none, device_id := "d", created_at := 0, updated_at := 0, deleted := 0 }

/-- The 250 records fetched for a REQUEST_SYNC of 250 ids. -/
def todos250 : List Todo := List.replicate 250 sampleTodo

set_option maxRecDepth 10000 in
/-- Claim C7: a SYNC_DATA answer for 250 records with chunk size 100 is
exactly 3 batch messages, their record counts sum to 250, their
batchIndex values are 0, 1, 2 and each carries totalBatches = 3. -/
theorem c7_batches_250 :
    (sendTodosInBatches todos250 100).length = 3 ∧
    ((sendTodosInBatches todos250 100).map (fun b => b.todos.length)).sum = 250 ∧
    (sendTodosInBatches todos250 100).map SyncDataBatch.batchIndex = [0, 1, 2] ∧
    (sendTodosInBatches todos250 100).map SyncDataBatch.totalBatches = [3, 3, 3] := by
  refine ⟨by decide, by decide, by decide, by decide⟩

/-- An incoming record whose updated_at (200000000) is far more than one
day away from a local clock at 0. -/
def skewTodo : Todo :=
  { id := "t1", title := "skew", description := "", completed := 0, priority := "high",
    due_date := none, device_id := "c", created_at := 5, updated_at := 200000000,
    deleted := 0 }

/-- Claim C9: for an incoming record whose updated_at is more than one day
from the local clock, the merge still orders by the raw updated_at value:
an absent record is inserted as-is, a strictly newer one overwrites with
its raw timestamp stored, a non-newer one is discarded; validateTimestamp
would have replaced the timestamp by the local clock, and that corrected
value is never the one the merge uses. -/
theorem c9_clock_skew_raw_timestamp (s : Store) (r : Todo) (now : Int)
    (hskew : |r.updated_at - now| > oneDay) :
    (s r.id = none → mergeTodo s r r.id = some r) ∧
    (∀ l, s r.id = some l → r.updated_at > l.updated_at →
      mergeTodo s r r.id = some (updateFields l r) ∧
      (updateFields l r).updated_at = r.updated_at) ∧
    (∀ l, s r.id = some l → ¬ r.updated_at > l.updated_at →
      mergeTodo s r r.id = some l) ∧
    validateTimestamp now r.updated_at = now ∧
    validateTimestamp now r.updated_at ≠ r.updated_at := by
  refine ⟨?_, ?_, ?_, ?_, ?_⟩
  · intro h; simp [mergeTodo, getTodoById, h, insertTodo]
  · intro l h hgt
    exact ⟨by simp [mergeTodo, getTodoById, h, if_pos hgt, updateTodo], rfl⟩
  · intro l h hgt; simp [mergeTodo, getTodoById, h, if_neg hgt]
  · unfold validateTimestamp; rw [if_pos hskew]
  · unfold validateTimestamp; rw [if_pos hskew]
    intro heq
    rw [heq] at hskew
    simp [oneDay] at hskew

/-- Witness for claim C9: at local clock 0 the incoming skewTodo
(updated_at 200000000, far beyond one day) overwrites the stored tdB with
its raw timestamp, which validateTimestamp would have corrected to 0. -/
theorem c9_witness :
    mergeTodo (storeWith tdB) skewTodo "t1" = some (updateFields tdB skewTodo) ∧
    (updateFields tdB skewTodo).updated_at = 200000000 ∧
    validateTimestamp 0 skewTodo.updated_at = 0 := by
  have h := c9_clock_skew_raw_timestamp (storeWith tdB) skewTodo 0 (by decide)
  exact ⟨(h.2.1 tdB rfl (by decide)).1, rfl, h.2.2.2.1⟩

/-! ## Properties of the relay server -/

lemma relayTypes_known {t : String} (h : t ∈ relayTypes) : t ∈ knownMessageTypes := by
  simp only [relayTypes, List.mem_cons, List.not_mem_nil, or_false] at h
  rcases h with h | h | h | h | h <;> rw [h] <;> decide

/-- A registry with one session s1 whose participants are d1 and d2. -/
def exSessions : SessionMap :=
  fun sid =>
    if sid = "s1" then some { sessionID := "s1", connections := ["d1", "d2"], createdAt := 0 }
    else none

/-- A message with an unknown type, sent by d1 into session s1. -/
def bogusMsg : SyncMessage :=
  { type := "BOGUS", sessionId := "s1", fromDevice := "d1", toDevice := none,
    timestamp := 0, payload := "x" }

/-- A relayable message with a missing (empty) session id. -/
def noSessionMsg : SyncMessage :=
  { type := "SYNC_DATA", sessionId := "", fromDevice := "d1", toDevice := none,
    timestamp := 0, payload := "p" }

/-- Claim C3 counterexample: on a concrete malformed message (unknown type
BOGUS) the handler writes nothing back to the sender, so in particular no
ERROR message is answered, contrary to the claim; the message is indeed
not relayed and the connection is not closed. -/
theorem c3_counterexample_no_error_reply :
    (syncWebSocketStep exSessions 0 bogusMsg).replies = [] ∧
    (syncWebSocketStep exSessions 0 bogusMsg).relayed = [] ∧
    (syncWebSocketStep exSessions 0 bogusMsg).closesConn = false := by
  exact ⟨rfl, rfl, rfl⟩

/-- Claim C3 as amended: a message with an unknown type is silently
dropped with no reply of any kind and nothing relayed, and the connection
stays open; a relayable message with a missing (empty) session id gets no
reply either and is passed to the normal relay path under the empty
session id, which delivers nothing when no such session exists, again
leaving the connection open. -/
theorem c3_amended_malformed_handling (sessions : SessionMap) (now : Int)
    (msg : SyncMessage) :
    (msg.type ∉ knownMessageTypes →
      syncWebSocketStep sessions now msg =
        { sessions := sessions, replies := [], relayed := [], closesConn := false }) ∧
    (msg.sessionId = "" → msg.type ∈ relayTypes → sessions "" = none →
      syncWebSocketStep sessions now msg =
        { sessions := sessions, replies := [], relayed := [], closesConn := false }) := by
  constructor
  · intro hunk
    have h1 : ¬ msg.type = "JOIN" := fun h => hunk (by rw [h]; decide)
    have h2 : msg.type ∉ relayTypes := fun h => hunk (relayTypes_known h)
    have h3 : ¬ msg.type = "PING" := fun h => hunk (by rw [h]; decide)
    simp [syncWebSocketStep, h1, h2, h3]
  · intro hsid hrel hnone
    have h1 : ¬ msg.type = "JOIN" := by
      intro h
      rw [h] at hrel
      exact absurd hrel (by decide)
    simp [syncWebSocketStep, h1, hrel, hsid, relayMessage, hnone]

/-- Witness for the amended claim C3 at the two concrete malformed
messages. -/
theorem c3_amended_witness :
    syncWebSocketStep exSessions 0 bogusMsg =
      { sessions := exSessions, replies := [], relayed := [], closesConn := false } ∧
    syncWebSocketStep exSessions 0 noSessionMsg =
      { sessions := exSessions, replies := [], relayed := [], closesConn := false } := by
  exact ⟨(c3_amended_malformed_handling exSessions 0 bogusMsg).1 (by decide),
    (c3_amended_malformed_handling exSessions 0 noSessionMsg).2 rfl (by decide) rfl⟩

/-- Claim C4: every delivery made by relayMessage for a session goes to a
participant of exactly that session, never to the sender itself, and the
message arrives unmodified; so a device joined only to another session can
never be a recipient. -/
theorem c4_session_isolation (sessions : SessionMap) (sid fromD : String)
    (msg : SyncMessage) (d : String) (m : SyncMessage)
    (h : (d, m) ∈ relayMessage sessions sid fromD msg) :
    (∃ s, sessions sid = some s ∧ d ∈ s.connections) ∧ d ≠ fromD ∧ m = msg := by
  rcases hs : sessions sid with _ | s
  · simp only [relayMessage, hs] at h
    exact absurd h (List.not_mem_nil _)
  · simp only [relayMessage, hs] at h
    obtain ⟨a, ha, heq⟩ := List.mem_map.mp h
    obtain ⟨hmem, hne⟩ := List.mem_filter.mp ha
    have h1 : a = d := congrArg Prod.fst heq
    have h2 : msg = m := congrArg Prod.snd heq
    subst h1
    exact ⟨⟨s, rfl, hmem⟩, of_decide_eq_true hne, h2.symm⟩

/-- A well-formed SYNC_DATA message from d1 in session s1. -/
def exMsg : SyncMessage :=
  { type := "SYNC_DATA", sessionId := "s1", fromDevice := "d1", toDevice := none,
    timestamp := 1, payload := "p" }

/-- Witness for claim C4: the delivery of exMsg to d2 in exSessions is to
a participant of s1 distinct from the sender d1. -/
theorem c4_witness :
    (∃ s, exSessions "s1" = some s ∧ "d2" ∈ s.connections) ∧ "d2" ≠ "d1" ∧ exMsg = exMsg := by
  exact c4_session_isolation exSessions "s1" "d1" exMsg "d2" exMsg (by decide)

/-- Claim C5: after a sweep at time now, a session strictly older than
fifteen minutes is absent from the registry and every one of its channels
was closed first, while a session whose age does not exceed fifteen
minutes is still present, its channels untouched. -/
theorem c5_sweep_expiry (sessions : SessionMap) (now : Int) (sid : String)
    (s : SyncSession) (h : sessions sid = some s) :
    (now - s.createdAt > fifteenMinutes →
      cleanupSessions sessions now sid = none ∧
      cleanupClosedChannels sessions now sid = s.connections) ∧
    (¬ now - s.createdAt > fifteenMinutes →
      cleanupSessions sessions now sid = some s ∧
      cleanupClosedChannels sessions now sid = []) := by
  constructor
  · intro hexp
    exact ⟨by simp [cleanupSessions, h, hexp], by simp [cleanupClosedChannels, h, hexp]⟩
  · intro hfresh
    exact ⟨by simp [cleanupSessions, h, hfresh], by simp [cleanupClosedChannels, h, hfresh]⟩

/-- A registry holding a session created at time 0 and one created at time
120000 (two minutes). -/
def sweepSessions : SessionMap :=
  fun sid =>
    if sid = "old" then some { sessionID := "old", connections := ["d1", "d2"], createdAt := 0 }
    else if sid = "fresh" then
      some { sessionID := "fresh", connections := ["d3"], createdAt := 120000 }
    else none

/-- Witness for claim C5 with the sweep running at 960000 (16 minutes):
the 16-minute-old session is gone with both channels closed, the
14-minute-old session survives. -/
theorem c5_witness :
    cleanupSessions sweepSessions 960000 "old" = none ∧
    cleanupClosedChannels sweepSessions 960000 "old" = ["d1", "d2"] ∧
    cleanupSessions sweepSessions 960000 "fresh" =
      some { sessionID := "fresh", connections := ["d3"], createdAt := 120000 } := by
  have hold := c5_sweep_expiry sweepSessions 960000 "old"
    { sessionID := "old", connections := ["d1", "d2"], createdAt := 0 } rfl
  have hfresh := c5_sweep_expiry sweepSessions 960000 "fresh"
    { sessionID := "fresh", connections := ["d3"], createdAt := 120000 } rfl
  exact ⟨(hold.1 (by decide)).1, (hold.1 (by decide)).2, (hfresh.2 (by decide)).1⟩

/-- Claim C6: removing participant did from its session removes exactly
that device; when the session thereby becomes empty it is deleted from the
map in the same operation, and in no case does an empty session remain
under that id. -/
theorem c6_leave_removes_and_deletes_empty (sessions : SessionMap)
    (sid did : String) (s : SyncSession) (h : sessions sid = some s)
    (hnd : s.connections.Nodup) (_hmem : did ∈ s.connections) :
    (s.connections.erase did = [] → removeConnection sessions sid did sid = none) ∧
    (s.connections.erase did ≠ [] →
      removeConnection sessions sid did sid =
        some { s with connections := s.connections.erase did }) ∧
    did ∉ s.connections.erase did ∧
    (∀ s', removeConnection sessions sid did sid = some s' → s'.connections ≠ []) := by
  have hres : removeConnection sessions sid did sid =
      if (s.connections.erase did).length = 0 then none
      else some { s with connections := s.connections.erase did } := by
    by_cases hz : (s.connections.erase did).length = 0
    · simp [removeConnection, h, hz]
    · simp [removeConnection, h, hz]
  have hnotmem : did ∉ s.connections.erase did := by
    intro hin
    exact ((List.Nodup.mem_erase_iff hnd).mp hin).1 rfl
  refine ⟨?_, ?_, hnotmem, ?_⟩
  · intro he
    rw [hres, if_pos (by rw [he]; rfl)]
  · intro he
    have hz : ¬ (s.connections.erase did).length = 0 :=
      fun hz0 => he (List.length_eq_zero.mp hz0)
    rw [hres, if_neg hz]
  · intro s' hs' hnil
    rw [hres] at hs'
    by_cases hz : (s.connections.erase did).length = 0
    · rw [if_pos hz] at hs'
      cases hs'
    · rw [if_neg hz] at hs'
      have hc := Option.some.inj hs'
      have hcc : s'.connections = s.connections.erase did := by rw [← hc]
      exact hz (by rw [← hcc, hnil]; rfl)

/-- A registry with a two-participant session s1 and a single-participant
session solo. -/
def leaveSessions : SessionMap :=
  fun sid =>
    if sid = "s1" then some { sessionID := "s1", connections := ["d1", "d2"], createdAt := 0 }
    else if sid = "solo" then
      some { sessionID := "solo", connections := ["d9"], createdAt := 0 }
    else none

/-- Witness for claim C6: the last participant leaving solo deletes the
session, while d1 leaving s1 leaves s1 holding exactly d2. -/
theorem c6_witness :
    removeConnection leaveSessions "solo" "d9" "solo" = none ∧
    removeConnection leaveSessions "s1" "d1" "s1" =
      some { sessionID := "s1", connections := ["d2"], createdAt := 0 } := by
  have h1 := c6_leave_removes_and_deletes_empty leaveSessions "solo" "d9"
    { sessionID := "solo", connections := ["d9"], createdAt := 0 } rfl (by decide) (by decide)
  have h2 := c6_leave_removes_and_deletes_empty leaveSessions "s1" "d1"
    { sessionID := "s1", connections := ["d1", "d2"], createdAt := 0 } rfl (by decide) (by decide)
  exact ⟨h1.1 (by decide), h2.2.1 (by decide)⟩

lemma relayMessage_targets (sessions : SessionMap) (sid fromD : String)
    (msg : SyncMessage) :
    (relayMessage sessions sid fromD msg).map Prod.fst =
      match sessions sid with
      | none => []
      | some s => s.connections.filter (fun d => d ≠ fromD) := by
  rcases hs : sessions sid with _ | s
  · simp [relayMessage, hs]
  · simp only [relayMessage, hs, List.map_map]
    have hcomp : (Prod.fst ∘ fun d : String => (d, msg)) = fun d : String => d := rfl
    rw [hcomp, List.map_id']

/-- Claim C10: the relay never consults toDevice. For any message, setting
toDevice to any value (a single named recipient or nothing) gives the very
same recipient list, and that list is exactly the participants of the
session other than the sender. -/
theorem c10_to_device_ignored (sessions : SessionMap) (sid fromD : String)
    (msg : SyncMessage) (td : Option String) (d : String) :
    (relayMessage sessions sid fromD { msg with toDevice := td }).map Prod.fst =
      (relayMessage sessions sid fromD msg).map Prod.fst ∧
    (d ∈ (relayMessage sessions sid fromD { msg with toDevice := td }).map Prod.fst ↔
      ∃ s, sessions sid = some s ∧ d ∈ s.connections ∧ d ≠ fromD) := by
  constructor
  · rw [relayMessage_targets, relayMessage_targets]
  · rw [relayMessage_targets]
    rcases hs : sessions sid with _ | s
    · simp [hs]
    · simp [hs, List.mem_filter]
